import Mathlib

/-!
Verification of the moltbook-cli repository: a shallow embedding of
`src/moltbook_cli/api.py` (the `MoltbookClient` HTTP API client) and
`src/moltbook_cli/config.py` (the config-file / environment credential store),
together with theorems settling the specification claims.

Modelling conventions:
- Request bodies and query parameters are association lists in Python dict
  insertion order, with values in `ReqVal` (string, integer or boolean).
- The HTTP transport (the `httpx` client plus `response.json()` parsing) is a
  function from the fully constructed `HttpRequest` to a parsed value; client
  methods are polymorphic in the transport result so that instantiating the
  transport with the identity function recovers the exact request issued.
- Python truthiness on `Optional[str]` (`if title:`) is `truthy`: false for
  `None` and for the empty string.
- The config file on disk is `FileState`: absent, or present with either
  well-formed contents (the parsed map) or malformed contents; `json.load`
  (library code, not part of the repository) is modelled as succeeding on
  well-formed contents and failing with a parse error on malformed ones.
-/

/-- Values that appear in query parameters and JSON request bodies. -/
inductive ReqVal where
  | str (s : String)
  | int (n : Int)
  | bool (b : Bool)
  deriving DecidableEq

/-- A JSON request body: Python dict in insertion order. -/
abbrev Body := List (String × ReqVal)

/-- Query parameters: Python dict in insertion order. -/
abbrev Params := List (String × ReqVal)

/-- Parsed JSON response values (what `response.json()` returns). -/
inductive Json where
  | null
  | bool (b : Bool)
  | num (n : Int)
  | str (s : String)
  | arr (elems : List Json)
  | obj (fields : List (String × Json))

/-- The full HTTP request as issued by the `httpx` client: method, the
client-level base URL, the endpoint path, query parameters, optional JSON
body, client-level headers, and the client-level timeout in time-units. -/
structure HttpRequest where
  method : String
  baseUrl : String
  path : String
  params : Params
  body : Option Body
  headers : List (String × String)
  timeout : Nat
  deriving DecidableEq

/-- A transport: executes one request and returns the parsed response body.
Polymorphic in the result so the identity transport extracts the request. -/
abbrev Transport (α : Type) := HttpRequest → α

/-- `API_BASE` from api.py. -/
def API_BASE : String := "https://www.moltbook.com/api/v1"

/-- Python truthiness of an `Optional[str]`: `None` and `""` are falsy. -/
def truthy : Option String → Bool
  | none => false
  | some s => !s.isEmpty

/-- `MoltbookClient.__init__`: holds the api key; the `httpx.Client` it builds
(base url, auth header, timeout) is reproduced in `MoltbookClient.request`. -/
structure MoltbookClient where
  api_key : String

/-- `MoltbookClient._request`: builds the request through the persistent
`httpx.Client` (fixed base URL, bearer-token header, 30-unit timeout),
sends it, and returns the parsed response body unmodified. -/
def MoltbookClient.request {α : Type} (c : MoltbookClient) (t : Transport α)
    (method : String) (endpoint : String) (params : Params) (json : Option Body) : α :=
  t ⟨method, API_BASE, endpoint, params, json,
     [("Authorization", "Bearer " ++ c.api_key)], 30⟩

/-- `MoltbookClient.get`. -/
def MoltbookClient.get {α : Type} (c : MoltbookClient) (t : Transport α)
    (endpoint : String) (params : Params) : α :=
  c.request t "GET" endpoint params none

/-- `MoltbookClient.post`. -/
def MoltbookClient.post {α : Type} (c : MoltbookClient) (t : Transport α)
    (endpoint : String) (json : Option Body) : α :=
  c.request t "POST" endpoint [] json

/-- `MoltbookClient.status`. -/
def MoltbookClient.status {α : Type} (c : MoltbookClient) (t : Transport α) : α :=
  c.get t "/agents/status" []

/-- `MoltbookClient.feed`. -/
def MoltbookClient.feed {α : Type} (c : MoltbookClient) (t : Transport α)
    (sort : String) (limit : Int) : α :=
  c.get t "/feed" [("sort", .str sort), ("limit", .int limit)]

/-- The repeated Python idiom `if x: data["key"] = x` on an `Optional[str]`:
append the entry only when the value is truthy (neither absent nor empty). -/
def addIfTruthy (d : Body) (key : String) (o : Option String) : Body :=
  match o with
  | some s => if s.isEmpty then d else d ++ [(key, .str s)]
  | none => d

/-- `MoltbookClient.posts`: `submolt` added to the query only when truthy. -/
def MoltbookClient.posts {α : Type} (c : MoltbookClient) (t : Transport α)
    (sort : String) (limit : Int) (submolt : Option String) : α :=
  let params : Params := [("sort", .str sort), ("limit", .int limit)]
  let params := addIfTruthy params "submolt" submolt
  c.get t "/posts" params

/-- `MoltbookClient.create_post`: `title` and `url` added only when truthy. -/
def MoltbookClient.create_post {α : Type} (c : MoltbookClient) (t : Transport α)
    (submolt content : String) (title url : Option String) : α :=
  let data : Body := [("submolt", .str submolt), ("content", .str content)]
  let data := addIfTruthy data "title" title
  let data := addIfTruthy data "url" url
  c.post t "/posts" (some data)

/-- `MoltbookClient.get_post`. -/
def MoltbookClient.get_post {α : Type} (c : MoltbookClient) (t : Transport α)
    (post_id : String) : α :=
  c.get t ("/posts/" ++ post_id) []

/-- `MoltbookClient.create_comment`: `parent_id` added only when truthy. -/
def MoltbookClient.create_comment {α : Type} (c : MoltbookClient) (t : Transport α)
    (post_id content : String) (parent_id : Option String) : α :=
  let data : Body := [("content", .str content)]
  let data := addIfTruthy data "parent_id" parent_id
  c.post t ("/posts/" ++ post_id ++ "/comments") (some data)

/-- `MoltbookClient.upvote`. -/
def MoltbookClient.upvote {α : Type} (c : MoltbookClient) (t : Transport α)
    (post_id : String) : α :=
  c.post t ("/posts/" ++ post_id ++ "/upvote") none

/-- `MoltbookClient.downvote`. -/
def MoltbookClient.downvote {α : Type} (c : MoltbookClient) (t : Transport α)
    (post_id : String) : α :=
  c.post t ("/posts/" ++ post_id ++ "/downvote") none

/-- `MoltbookClient.dm_check`. -/
def MoltbookClient.dm_check {α : Type} (c : MoltbookClient) (t : Transport α) : α :=
  c.get t "/agents/dm/check" []

/-- `MoltbookClient.dm_conversations`. -/
def MoltbookClient.dm_conversations {α : Type} (c : MoltbookClient) (t : Transport α) : α :=
  c.get t "/agents/dm/conversations" []

/-- `MoltbookClient.dm_read`. -/
def MoltbookClient.dm_read {α : Type} (c : MoltbookClient) (t : Transport α)
    (conversation_id : String) : α :=
  c.get t ("/agents/dm/conversations/" ++ conversation_id) []

/-- `MoltbookClient.dm_send`: `needs_human_input` added only when true. -/
def MoltbookClient.dm_send {α : Type} (c : MoltbookClient) (t : Transport α)
    (conversation_id message : String) (needs_human_input : Bool) : α :=
  let data : Body := [("message", .str message)]
  let data := if needs_human_input then data ++ [("needs_human_input", .bool true)] else data
  c.post t ("/agents/dm/conversations/" ++ conversation_id ++ "/send") (some data)

/-- `MoltbookClient.dm_request`: key `to_owner` when `by_owner`, else `to`. -/
def MoltbookClient.dm_request {α : Type} (c : MoltbookClient) (t : Transport α)
    (to_ message : String) (by_owner : Bool) : α :=
  let data : Body := [("message", .str message)]
  let data := if by_owner then data ++ [("to_owner", .str to_)] else data ++ [("to", .str to_)]
  c.post t "/agents/dm/request" (some data)

/-- `MoltbookClient.dm_requests`. -/
def MoltbookClient.dm_requests {α : Type} (c : MoltbookClient) (t : Transport α) : α :=
  c.get t "/agents/dm/requests" []

/-- `MoltbookClient.dm_approve`. -/
def MoltbookClient.dm_approve {α : Type} (c : MoltbookClient) (t : Transport α)
    (conversation_id : String) : α :=
  c.post t ("/agents/dm/requests/" ++ conversation_id ++ "/approve") none

/-- `MoltbookClient.dm_reject`: body `{block: true}` when `block`, else no
JSON payload at all (`json=data if data else None` with empty `data`). -/
def MoltbookClient.dm_reject {α : Type} (c : MoltbookClient) (t : Transport α)
    (conversation_id : String) (block : Bool) : α :=
  let data : Body := if block then [("block", .bool true)] else []
  c.post t ("/agents/dm/requests/" ++ conversation_id ++ "/reject")
    (if data.isEmpty then none else some data)

/-- `MoltbookClient.submolts`. -/
def MoltbookClient.submolts {α : Type} (c : MoltbookClient) (t : Transport α) : α :=
  c.get t "/submolts" []

/-- `MoltbookClient.search`. -/
def MoltbookClient.search {α : Type} (c : MoltbookClient) (t : Transport α)
    (query : String) : α :=
  c.get t "/search" [("q", .str query)]

/-- The public request-issuing operations of `MoltbookClient`, with their
arguments, as one type, so claims can quantify over every operation. -/
inductive Operation where
  | status
  | feed (sort : String) (limit : Int)
  | posts (sort : String) (limit : Int) (submolt : Option String)
  | create_post (submolt content : String) (title url : Option String)
  | get_post (post_id : String)
  | create_comment (post_id content : String) (parent_id : Option String)
  | upvote (post_id : String)
  | downvote (post_id : String)
  | dm_check
  | dm_conversations
  | dm_read (conversation_id : String)
  | dm_send (conversation_id message : String) (needs_human_input : Bool)
  | dm_request (to_ message : String) (by_owner : Bool)
  | dm_requests
  | dm_approve (conversation_id : String)
  | dm_reject (conversation_id : String) (block : Bool)
  | submolts
  | search (query : String)

/-- Dispatch an `Operation` to the corresponding client method. -/
def MoltbookClient.run {α : Type} (c : MoltbookClient) (t : Transport α) :
    Operation → α
  | .status => c.status t
  | .feed sort limit => c.feed t sort limit
  | .posts sort limit submolt => c.posts t sort limit submolt
  | .create_post submolt content title url => c.create_post t submolt content title url
  | .get_post post_id => c.get_post t post_id
  | .create_comment post_id content parent_id => c.create_comment t post_id content parent_id
  | .upvote post_id => c.upvote t post_id
  | .downvote post_id => c.downvote t post_id
  | .dm_check => c.dm_check t
  | .dm_conversations => c.dm_conversations t
  | .dm_read conversation_id => c.dm_read t conversation_id
  | .dm_send conversation_id message nhi => c.dm_send t conversation_id message nhi
  | .dm_request to_ message by_owner => c.dm_request t to_ message by_owner
  | .dm_requests => c.dm_requests t
  | .dm_approve conversation_id => c.dm_approve t conversation_id
  | .dm_reject conversation_id block => c.dm_reject t conversation_id block
  | .submolts => c.submolts t
  | .search query => c.search t query

/-- Key membership in a body / parameter list. -/
def hasKey : Body → String → Bool
  | [], _ => false
  | p :: rest, key => p.1 == key || hasKey rest key

/-- Value of the first occurrence of a key in a body / parameter list. -/
def bodyGet : Body → String → Option ReqVal
  | [], _ => none
  | p :: rest, key => if p.1 == key then some p.2 else bodyGet rest key

/-! Config store: `src/moltbook_cli/config.py`. -/

/-- The flat string-to-string settings map persisted at `~/.moltbook/config.json`,
in file order. -/
abbrev ConfigMap := List (String × String)

/-- Contents of an existing config file: either well-formed (standing for the
map its JSON parses to) or malformed, with the parse error message. -/
inductive RawFile where
  | wellFormed (m : ConfigMap)
  | malformed (e : String)

/-- The config file location: absent, or a file with some contents. -/
abbrev FileState := Option RawFile

/-- Modelled from the spec: `json.load` (standard library, not repository
code) parses well-formed contents to their map and fails with a parse error
on malformed contents. -/
def json_load : RawFile → Except String ConfigMap
  | .wellFormed m => .ok m
  | .malformed e => .error e

/-- `load_config`: parse the file if it exists, else return the empty map. -/
def load_config (fs : FileState) : Except String ConfigMap :=
  match fs with
  | some file => json_load file
  | none => .ok []

/-- `save_config`: `json.dump` overwrites the whole file with the map. -/
def save_config (config : ConfigMap) : FileState :=
  some (.wellFormed config)

/-- Python `dict.get` on the map. -/
def dictGet : ConfigMap → String → Option String
  | [], _ => none
  | p :: rest, key => if p.1 == key then some p.2 else dictGet rest key

/-- Python `config[key] = value`: replace the entry in place if the key is
present, else append it. -/
def dictSet : ConfigMap → String → String → ConfigMap
  | [], key, value => [(key, value)]
  | p :: rest, key, value =>
      if p.1 == key then (key, value) :: rest else p :: dictSet rest key value

/-- `get_api_key`: the `MOLTBOOK_API_KEY` environment variable (here `env`,
`none` when unset) wins when truthy; otherwise fall back to `api_key` in the
loaded config. -/
def get_api_key (env : Option String) (fs : FileState) :
    Except String (Option String) :=
  if truthy env then .ok env
  else (load_config fs).map (fun config => dictGet config "api_key")

/-- `set_api_key`: read-modify-write of the `api_key` entry. -/
def set_api_key (api_key : String) (fs : FileState) : Except String FileState :=
  (load_config fs).map (fun config => save_config (dictSet config "api_key" api_key))

/-- `get_config_value`. -/
def get_config_value (key : String) (fs : FileState) :
    Except String (Option String) :=
  (load_config fs).map (fun config => dictGet config key)

/-- `set_config_value`: read-modify-write of one entry, then full rewrite. -/
def set_config_value (key value : String) (fs : FileState) :
    Except String FileState :=
  (load_config fs).map (fun config => save_config (dictSet config key value))

/-- A concrete client used in closed counterexamples and witnesses. -/
def testClient : MoltbookClient := ⟨"TESTKEY"⟩

/-- The failure envelope of the C1 scenario. -/
def errEnvelope : Json :=
  .obj [("success", .bool false), ("error", .str "invalid_token"),
        ("hint", .str "check key")]

/-- The feed response body of the C9 scenario. -/
def feedBody : Json :=
  .obj [("posts", .arr [.obj [("id", .str "abc")]])]

/-! Helper lemmas on key membership, lookup, and map update. -/

theorem hasKey_append (b1 b2 : Body) (key : String) :
    hasKey (b1 ++ b2) key = (hasKey b1 key || hasKey b2 key) := by
  induction b1 with
  | nil => simp [hasKey]
  | cons p rest ih => simp [hasKey, ih, Bool.or_assoc]

theorem bodyGet_append (b1 b2 : Body) (key : String) (h : hasKey b1 key = false) :
    bodyGet (b1 ++ b2) key = bodyGet b2 key := by
  induction b1 with
  | nil => simp [bodyGet]
  | cons p rest ih =>
      simp only [hasKey, Bool.or_eq_false_iff] at h
      simp [bodyGet, h.1, ih h.2]

theorem bodyGet_of_hasKey_false (b : Body) (key : String) (h : hasKey b key = false) :
    bodyGet b key = none := by
  induction b with
  | nil => rfl
  | cons p rest ih =>
      simp only [hasKey, Bool.or_eq_false_iff] at h
      simp [bodyGet, h.1, ih h.2]

theorem hasKey_addIfTruthy (d : Body) (key : String) (o : Option String) :
    hasKey (addIfTruthy d key o) key = (hasKey d key || truthy o) := by
  rcases o with _ | s
  · simp [addIfTruthy, truthy]
  · cases h : s.isEmpty <;>
      simp [addIfTruthy, truthy, h, hasKey_append, hasKey]

theorem bodyGet_addIfTruthy (d : Body) (key : String) (o : Option String)
    (h : hasKey d key = false) :
    bodyGet (addIfTruthy d key o) key
      = if truthy o then some (ReqVal.str (o.getD "")) else none := by
  rcases o with _ | s
  · simp [addIfTruthy, truthy, bodyGet_of_hasKey_false d key h]
  · cases hs : s.isEmpty <;>
      simp [addIfTruthy, truthy, hs, bodyGet_append d _ key h,
            bodyGet, bodyGet_of_hasKey_false d key h]

theorem hasKey_addIfTruthy_ne (d : Body) (key : String) (o : Option String)
    (k2 : String) (h : k2 ≠ key) :
    hasKey (addIfTruthy d key o) k2 = hasKey d k2 := by
  rcases o with _ | s
  · rfl
  · cases hs : s.isEmpty <;>
      simp [addIfTruthy, hs, hasKey_append, hasKey, Ne.symm h]

theorem bodyGet_addIfTruthy_ne (d : Body) (key : String) (o : Option String)
    (k2 : String) (h : k2 ≠ key) :
    bodyGet (addIfTruthy d key o) k2 = bodyGet d k2 := by
  rcases o with _ | s
  · rfl
  · cases hs : s.isEmpty
    · simp only [addIfTruthy, hs, Bool.false_eq_true, if_false]
      induction d with
      | nil => simp [bodyGet, Ne.symm h]
      | cons p rest ih => cases hp : (p.1 == k2) <;> simp [bodyGet, hp, ih]
    · simp [addIfTruthy, hs]

theorem dictGet_dictSet_self (m : ConfigMap) (x v : String) :
    dictGet (dictSet m x v) x = some v := by
  induction m with
  | nil => simp [dictSet, dictGet]
  | cons p rest ih =>
      cases h : (p.1 == x) <;> simp [dictSet, dictGet, h, ih]

theorem dictGet_dictSet_ne (m : ConfigMap) (x v y : String) (h : y ≠ x) :
    dictGet (dictSet m x v) y = dictGet m y := by
  have hxy : (x == y) = false := beq_eq_false_iff_ne.mpr (Ne.symm h)
  induction m with
  | nil => simp [dictSet, dictGet, hxy]
  | cons p rest ih =>
      cases hp : (p.1 == x)
      · simp [dictSet, dictGet, hp, ih]
      · have hx : p.1 = x := by
          have := hp
          simpa [beq_iff_eq] using this
        simp [dictSet, dictGet, hp, hx, hxy]

/-! Claim theorems. -/

/-- C1: every `MoltbookClient` operation returns the transport's parsed
response body unmodified (the result is exactly the transport applied to the
issued request; the embedding is total, so no exception is raised on
HTTP-level or application-level failure); in particular `status` against a
transport answering the `success=false` / `invalid_token` / `check key`
envelope returns exactly that envelope. -/
theorem c1_operations_return_body_unmodified :
    (∀ (c : MoltbookClient) (op : Operation) {α : Type} (t : Transport α),
        c.run t op = t (c.run (fun r => r) op)) ∧
    ∀ (c : MoltbookClient), c.status (fun _ => errEnvelope) = errEnvelope := by
  refine ⟨fun c op => ?_, fun c => rfl⟩
  intro α t
  cases op <;> rfl

/-- C5: `dm_reject` sends no JSON payload when `block` is false, and sends
exactly the single-entry body mapping `block` to `true` when `block` is
true. -/
theorem c5_dm_reject_body (c : MoltbookClient) (conversation_id : String) :
    (c.dm_reject (fun r => r) conversation_id false).body = none ∧
    (c.dm_reject (fun r => r) conversation_id true).body
      = some [("block", ReqVal.bool true)] :=
  ⟨rfl, rfl⟩

/-- C4: `dm_request` with `by_owner = true` puts the recipient under key
`to_owner` and sends no `to` key; with `by_owner = false` it puts the
recipient under key `to` and sends no `to_owner` key; both bodies carry
`message`. -/
theorem c4_dm_request_keys (c : MoltbookClient) (to_ message : String) :
    bodyGet (((c.dm_request (fun r => r) to_ message true).body).getD []) "to_owner"
      = some (ReqVal.str to_) ∧
    hasKey (((c.dm_request (fun r => r) to_ message true).body).getD []) "to" = false ∧
    bodyGet (((c.dm_request (fun r => r) to_ message true).body).getD []) "message"
      = some (ReqVal.str message) ∧
    bodyGet (((c.dm_request (fun r => r) to_ message false).body).getD []) "to"
      = some (ReqVal.str to_) ∧
    hasKey (((c.dm_request (fun r => r) to_ message false).body).getD []) "to_owner"
      = false ∧
    bodyGet (((c.dm_request (fun r => r) to_ message false).body).getD []) "message"
      = some (ReqVal.str message) :=
  ⟨rfl, rfl, rfl, rfl, rfl, rfl⟩

/-- C8: for every credential and every public operation, the issued request
targets the fixed base URL, carries the bearer-token authorization header
built from the credential, and uses the uniform 30-unit timeout. -/
theorem c8_base_auth_timeout (c : MoltbookClient) (op : Operation) :
    (c.run (fun r => r) op).baseUrl = API_BASE ∧
    (c.run (fun r => r) op).headers
      = [("Authorization", "Bearer " ++ c.api_key)] ∧
    (c.run (fun r => r) op).timeout = 30 := by
  cases op <;> exact ⟨rfl, rfl, rfl⟩

/-- C9: `feed "top" 5` issues a GET request to `/feed` with query
`sort=top, limit=5`, and returns the parsed body verbatim for any transport;
in particular a transport answering the one-post body yields exactly that
body. -/
theorem c9_feed_request_and_verbatim (c : MoltbookClient) :
    (c.feed (fun r => r) "top" 5).method = "GET" ∧
    (c.feed (fun r => r) "top" 5).path = "/feed" ∧
    (c.feed (fun r => r) "top" 5).params
      = [("sort", ReqVal.str "top"), ("limit", ReqVal.int 5)] ∧
    (c.feed (fun r => r) "top" 5).body = none ∧
    (∀ {α : Type} (t : Transport α),
        c.feed t "top" 5 = t (c.feed (fun r => r) "top" 5)) ∧
    c.feed (fun _ => feedBody) "top" 5 = feedBody :=
  ⟨rfl, rfl, rfl, rfl, fun _ => rfl, rfl⟩

/-- C2 as stated is refuted: with the `MOLTBOOK_API_KEY` environment variable
set to the empty string (set, but falsy in Python) and the config file
containing `api_key = FILEKEY`, `get_api_key` returns the config value
`FILEKEY`, not the environment value. -/
theorem c2_counterexample :
    get_api_key (some "") (some (RawFile.wellFormed [("api_key", "FILEKEY")]))
      = Except.ok (some "FILEKEY") ∧
    ((some "FILEKEY" : Option String) == some "") = false :=
  ⟨rfl, rfl⟩

/-- C2 amended: `get_api_key` returns the environment value when it is set
and non-empty; when the environment variable is absent or empty it returns
the `api_key` entry of the loaded config map (so `none` when that entry is
missing or when the config file does not exist). -/
theorem c2_amended_credential_resolution (env : Option String) (m : ConfigMap) :
    get_api_key env (some (RawFile.wellFormed m))
      = Except.ok (if truthy env then env else dictGet m "api_key") ∧
    get_api_key env none
      = Except.ok (if truthy env then env else none) := by
  cases h : truthy env <;>
    simp [get_api_key, load_config, json_load, h, Except.map, dictGet]

/-- C3 as stated is refuted: calling `create_post` with `title` present but
equal to the empty string omits the `title` key from the body, although the
claim requires every present input to be included. -/
theorem c3_counterexample :
    hasKey (((MoltbookClient.create_post testClient (fun r => r) "general" "hello"
      (some "") none).body).getD []) "title" = false :=
  rfl

/-- C3 amended: for every operation with optional fields, the constructed
body or query omits the key when the input is absent, an empty string, or
the false default, and includes the key with the input's value when the
input is a non-empty string or `true` (inclusion is decided by Python
truthiness). -/
theorem c3_amended_optional_field_omission (c : MoltbookClient)
    (submolt content sort : String) (limit : Int)
    (conversation_id message : String)
    (title url subq : Option String) (needs_human_input : Bool) :
    (hasKey (((c.create_post (fun r => r) submolt content title url).body).getD [])
        "title" = truthy title) ∧
    (bodyGet (((c.create_post (fun r => r) submolt content title url).body).getD [])
        "title" = if truthy title then some (ReqVal.str (title.getD "")) else none) ∧
    (hasKey (((c.create_post (fun r => r) submolt content title url).body).getD [])
        "url" = truthy url) ∧
    (bodyGet (((c.create_post (fun r => r) submolt content title url).body).getD [])
        "url" = if truthy url then some (ReqVal.str (url.getD "")) else none) ∧
    (hasKey ((c.posts (fun r => r) sort limit subq).params) "submolt" = truthy subq) ∧
    (bodyGet ((c.posts (fun r => r) sort limit subq).params) "submolt"
        = if truthy subq then some (ReqVal.str (subq.getD "")) else none) ∧
    (hasKey (((c.dm_send (fun r => r) conversation_id message
        needs_human_input).body).getD []) "needs_human_input" = needs_human_input) ∧
    (bodyGet (((c.dm_send (fun r => r) conversation_id message
        needs_human_input).body).getD []) "needs_human_input"
        = if needs_human_input then some (ReqVal.bool true) else none) := by
  have hbase : hasKey [("submolt", ReqVal.str submolt),
      ("content", ReqVal.str content)] "title" = false := rfl
  have hbase2 : hasKey (addIfTruthy [("submolt", ReqVal.str submolt),
      ("content", ReqVal.str content)] "title" title) "url" = false := by
    rw [hasKey_addIfTruthy_ne _ _ _ _ (by decide)]; rfl
  refine ⟨?_, ?_, ?_, ?_, ?_, ?_, ?_, ?_⟩
  · show hasKey (addIfTruthy (addIfTruthy _ "title" title) "url" url) "title" = truthy title
    rw [hasKey_addIfTruthy_ne _ _ _ _ (by decide), hasKey_addIfTruthy, hbase,
        Bool.false_or]
  · show bodyGet (addIfTruthy (addIfTruthy _ "title" title) "url" url) "title" = _
    rw [bodyGet_addIfTruthy_ne _ _ _ _ (by decide), bodyGet_addIfTruthy _ _ _ hbase]
  · show hasKey (addIfTruthy (addIfTruthy _ "title" title) "url" url) "url" = truthy url
    rw [hasKey_addIfTruthy, hbase2, Bool.false_or]
  · show bodyGet (addIfTruthy (addIfTruthy _ "title" title) "url" url) "url" = _
    rw [bodyGet_addIfTruthy _ _ _ hbase2]
  · show hasKey (addIfTruthy [("sort", ReqVal.str sort), ("limit", ReqVal.int limit)]
        "submolt" subq) "submolt" = truthy subq
    rw [hasKey_addIfTruthy]; rfl
  · show bodyGet (addIfTruthy [("sort", ReqVal.str sort), ("limit", ReqVal.int limit)]
        "submolt" subq) "submolt" = _
    rw [bodyGet_addIfTruthy _ _ _ (by rfl)]
  · cases needs_human_input <;>
      simp [MoltbookClient.dm_send, MoltbookClient.post, MoltbookClient.request,
            hasKey]
  · cases needs_human_input <;>
      simp [MoltbookClient.dm_send, MoltbookClient.post, MoltbookClient.request,
            bodyGet]

/-- C6: setting one key through `set_config_value` on any loadable prior
state and loading again yields a map that maps that key to the new value and
agrees with the prior map on every other key (read-modify-write, not a
whole-file overwrite that drops other keys). -/
theorem c6_set_value_roundtrip (fs : FileState) (m : ConfigMap) (x v : String)
    (h : load_config fs = .ok m) :
    set_config_value x v fs = .ok (save_config (dictSet m x v)) ∧
    load_config (save_config (dictSet m x v)) = .ok (dictSet m x v) ∧
    dictGet (dictSet m x v) x = some v ∧
    ∀ y, y ≠ x → dictGet (dictSet m x v) y = dictGet m y := by
  refine ⟨?_, rfl, dictGet_dictSet_self m x v,
          fun y hy => dictGet_dictSet_ne m x v y hy⟩
  simp [set_config_value, h, Except.map]

/-- C6 witness: the round trip at the concrete prior file containing only
the entry `a = 0`, setting `x = 1`. -/
theorem c6_set_value_roundtrip_witness :
    set_config_value "x" "1" (some (RawFile.wellFormed [("a", "0")]))
      = Except.ok (save_config (dictSet [("a", "0")] "x" "1")) ∧
    dictGet (dictSet [("a", "0")] "x" "1") "x" = some "1" ∧
    dictGet (dictSet [("a", "0")] "x" "1") "a" = dictGet [("a", "0")] "a" :=
  ⟨(c6_set_value_roundtrip (some (RawFile.wellFormed [("a", "0")]))
      [("a", "0")] "x" "1" rfl).1,
   (c6_set_value_roundtrip (some (RawFile.wellFormed [("a", "0")]))
      [("a", "0")] "x" "1" rfl).2.2.1,
   (c6_set_value_roundtrip (some (RawFile.wellFormed [("a", "0")]))
      [("a", "0")] "x" "1" rfl).2.2.2 "a" (by decide)⟩

/-- C7: `load_config` returns the empty map when no config file exists, and
fails with the parse error (rather than returning a map) when the file
exists but its contents are malformed. -/
theorem c7_load_config_missing_and_malformed (e : String) :
    load_config none = Except.ok ([] : ConfigMap) ∧
    load_config (some (RawFile.malformed e)) = Except.error e :=
  ⟨rfl, rfl⟩

/-- C10: passing the empty string for an optional string parameter of
`create_post` (title, url), `posts` (submolt) or `create_comment`
(parent_id) behaves identically to omitting it, for every transport:
inclusion is decided by truthiness, and the empty string is falsy. -/
theorem c10_empty_string_like_absent {α : Type} (c : MoltbookClient)
    (t : Transport α) (submolt content sort : String) (limit : Int)
    (post_id comment_content : String) (title url : Option String) :
    c.create_post t submolt content (some "") url
      = c.create_post t submolt content none url ∧
    c.create_post t submolt content title (some "")
      = c.create_post t submolt content title none ∧
    c.posts t sort limit (some "") = c.posts t sort limit none ∧
    c.create_comment t post_id comment_content (some "")
      = c.create_comment t post_id comment_content none :=
  ⟨rfl, rfl, rfl, rfl⟩
